import Mathlib

/-!
Verification development for a YouTube-transcript acquisition pipeline.

The definitions below are a shallow embedding of the repository's
TypeScript sources:
  * `Utils`            — `lib/utils.ts` (`extractVideoId`, `isValidYouTubeUrl`);
  * `TranscriptRoute`  — `app/api/transcript/route.ts` (the library-backed
    retry loop, the direct-page fallback's track selection, and the
    cue-XML parser `parseTranscriptXml`);
  * `YtDlp`            — the yt-dlp-backed route (segment-JSON and
    VTT-like parsing, subtitle-track selection).

JavaScript numbers are modelled as `ℚ` where the code cannot produce
NaN, and as `Option ℚ` (with `none` standing for NaN) where it can.
Strings are Lean `String`s; JS `String.prototype` operations used by the
code are given explicit executable models below.
-/

/- The arithmetic on `Rat` is `@[irreducible]` upstream, which blocks
`decide` from evaluating the executable models below on concrete payloads;
restore reducibility for this file so concrete runs reduce. -/
attribute [local semireducible] Rat.mul Rat.add Rat.sub Rat.inv Rat.ofScientific

/-- Model of JS `hay.includes(needle)` at the character-list level. -/
def containsSub (needle : List Char) : List Char → Bool
  | [] => needle.isEmpty
  | c :: t => needle.isPrefixOf (c :: t) || containsSub needle t

/-- Model of JS `hay.includes(needle)` on strings. -/
def strContains (hay needle : String) : Bool :=
  containsSub needle.data hay.data

/-- One left-to-right pass of JS `hay.replace(/needle/g, repl)` for a literal,
non-empty needle: each occurrence is replaced once and scanning resumes after
the replacement (the replacement text is not rescanned).  `fuel` bounds the
recursion; callers pass the input length, which suffices because every step
consumes at least one input character. -/
def replaceSub (needle repl : List Char) : Nat → List Char → List Char
  | 0, cs => cs
  | Nat.succ fuel, cs =>
    if needle.isPrefixOf cs ∧ needle ≠ [] then
      repl ++ replaceSub needle repl fuel (cs.drop needle.length)
    else
      match cs with
      | [] => []
      | c :: t => c :: replaceSub needle repl fuel t

/-- Model of JS `parseFloat` restricted to the numeric shapes the subtitle
formats produce: optional sign, decimal digits, optional fraction.  `none`
models NaN (no parsable numeric prefix).  Exponent forms are not modelled;
no input considered here contains them. -/
def parseFloatM (s : String) : Option ℚ :=
  let cs := s.data.dropWhile Char.isWhitespace
  let signed : ℚ × List Char :=
    match cs with
    | '-' :: t => (-1, t)
    | '+' :: t => (1, t)
    | _ => (1, cs)
  let intDigits := signed.2.takeWhile Char.isDigit
  let afterInt := signed.2.dropWhile Char.isDigit
  let fracDigits : List Char :=
    match afterInt with
    | '.' :: t => t.takeWhile Char.isDigit
    | _ => []
  if intDigits.isEmpty ∧ fracDigits.isEmpty then none
  else
    let intVal : ℚ := (intDigits.foldl (fun a c => a * 10 + (c.toNat - 48)) 0 : Nat)
    let fracVal : ℚ :=
      ((fracDigits.foldl (fun a c => a * 10 + (c.toNat - 48)) 0 : Nat) : ℚ) /
        ((10 : ℚ) ^ fracDigits.length)
    some (signed.1 * (intVal + fracVal))

/-- NaN-propagating addition on JS numbers (`none` is NaN). -/
def jadd : Option ℚ → Option ℚ → Option ℚ
  | some a, some b => some (a + b)
  | _, _ => none

/-- NaN-propagating subtraction on JS numbers (`none` is NaN). -/
def jsub : Option ℚ → Option ℚ → Option ℚ
  | some a, some b => some (a - b)
  | _, _ => none

/-- NaN-propagating multiplication by a constant (`none` is NaN). -/
def jmul (a : Option ℚ) (c : ℚ) : Option ℚ :=
  a.map (· * c)

/-- Model of JS `s.trim()` (whitespace restricted to the ASCII forms that
occur in the payloads considered here). -/
def jsTrim (s : String) : String :=
  String.mk (((s.data.dropWhile Char.isWhitespace).reverse.dropWhile
    Char.isWhitespace).reverse)

/-- Model of JS `s.toLowerCase()` for the ASCII texts compared here. -/
def jsToLower (s : String) : String :=
  String.mk (s.data.map Char.toLower)

/-- Model of JS `s.startsWith(p)`. -/
def jsStartsWith (s p : String) : Bool :=
  p.data.isPrefixOf s.data

/-- Worker for `jsSplit`: scans left to right for occurrences of the
non-empty separator; `cur` accumulates the current piece reversed.  `fuel`
bounds recursion (input length plus one suffices: every step consumes at
least one character). -/
def splitSubAux (sep : List Char) : Nat → List Char → List Char → List (List Char)
  | 0, cur, _ => [cur.reverse]
  | Nat.succ fuel, cur, cs =>
    if sep.isPrefixOf cs ∧ sep ≠ [] then
      cur.reverse :: splitSubAux sep fuel [] (cs.drop sep.length)
    else
      match cs with
      | [] => [cur.reverse]
      | c :: t => splitSubAux sep fuel (c :: cur) t

/-- Model of JS `s.split(sep)` for a non-empty literal separator. -/
def jsSplit (s sep : String) : List String :=
  (splitSubAux sep.data (s.data.length + 1) [] s.data).map String.mk

namespace Utils

/-- The character class `[a-zA-Z0-9_-]` of the video-id capture groups in
`lib/utils.ts`. -/
def idChar (c : Char) : Bool :=
  c.isAlpha || c.isDigit || c == '_' || c == '-'

/-- After one of the URL-shape literals, the regexes of `extractVideoId`
capture exactly 11 characters of the class `[a-zA-Z0-9_-]`.  Returns the
captured characters when the literal prefix and the 11-character group match
at the head of `cs`. -/
def matchIdAfter (p : List Char) (cs : List Char) : Option (List Char) :=
  if p.isPrefixOf cs then
    if ((cs.drop p.length).take 11).length = 11 ∧
        ((cs.drop p.length).take 11).all idChar then
      some ((cs.drop p.length).take 11)
    else none
  else none

/-- Regex alternation, tried left to right at a fixed position. -/
def tryAlts : List (List Char) → List Char → Option (List Char)
  | [], _ => none
  | p :: ps, cs =>
    match matchIdAfter p cs with
    | some r => some r
    | none => tryAlts ps cs

/-- Unanchored regex search: try the alternation at each position, leftmost
match wins — the semantics of `url.match(pattern)` for these patterns. -/
def scanFor (ps : List (List Char)) : List Char → Option (List Char)
  | [] => tryAlts ps []
  | c :: t =>
    match tryAlts ps (c :: t) with
    | some r => some r
    | none => scanFor ps t

/-- The three alternatives of `watchPattern` in `lib/utils.ts`:
`(?:youtube\.com\/watch\?v=|youtu\.be\/|youtube\.com\/embed\/)`. -/
def watchAlternatives : List (List Char) :=
  ["youtube.com/watch?v=".data, "youtu.be/".data, "youtube.com/embed/".data]

/-- Model of `extractVideoId` from `lib/utils.ts`: guard against a falsy
input, trim, then try `watchPattern`, `shortPattern` (`youtu.be\/…`) and
`embedPattern` (`youtube\.com\/embed\/…`) in that order. -/
def extractVideoId (url : String) : Option String :=
  if url = "" then none
  else
    match scanFor watchAlternatives (jsTrim url).data with
    | some r => some (String.mk r)
    | none =>
      match scanFor ["youtu.be/".data] (jsTrim url).data with
      | some r => some (String.mk r)
      | none =>
        match scanFor ["youtube.com/embed/".data] (jsTrim url).data with
        | some r => some (String.mk r)
        | none => none

/-- Model of `isValidYouTubeUrl` from `lib/utils.ts`:
`extractVideoId(url) !== null`. -/
def isValidYouTubeUrl (url : String) : Bool :=
  (extractVideoId url).isSome

theorem matchIdAfter_some {p cs r} (h : matchIdAfter p cs = some r) :
    r.length = 11 ∧ r.all idChar = true := by
  unfold matchIdAfter at h
  split at h
  · split at h
    · rename_i hcond
      cases h
      exact ⟨hcond.1, hcond.2⟩
    · exact absurd h (by simp)
  · exact absurd h (by simp)

theorem tryAlts_some {ps cs r} (h : tryAlts ps cs = some r) :
    r.length = 11 ∧ r.all idChar = true := by
  induction ps with
  | nil => simp [tryAlts] at h
  | cons p ps ih =>
    unfold tryAlts at h
    cases hm : matchIdAfter p cs with
    | some v => rw [hm] at h; cases h; exact matchIdAfter_some hm
    | none => rw [hm] at h; exact ih h

theorem scanFor_some {ps cs r} (h : scanFor ps cs = some r) :
    r.length = 11 ∧ r.all idChar = true := by
  induction cs with
  | nil => exact tryAlts_some h
  | cons c t ih =>
    unfold scanFor at h
    cases hm : tryAlts ps (c :: t) with
    | some v => rw [hm] at h; cases h; exact tryAlts_some hm
    | none => rw [hm] at h; exact ih h

theorem extractVideoId_some {url v} (h : extractVideoId url = some v) :
    v.length = 11 ∧ v.data.all idChar = true := by
  unfold extractVideoId at h
  split at h
  · exact absurd h (by simp)
  · cases h1 : scanFor watchAlternatives (jsTrim url).data with
    | some r =>
      rw [h1] at h; cases h
      exact scanFor_some h1
    | none =>
      rw [h1] at h
      cases h2 : scanFor ["youtu.be/".data] (jsTrim url).data with
      | some r =>
        rw [h2] at h; cases h
        exact scanFor_some h2
      | none =>
        rw [h2] at h
        cases h3 : scanFor ["youtube.com/embed/".data] (jsTrim url).data with
        | some r =>
          rw [h3] at h; cases h
          exact scanFor_some h3
        | none => rw [h3] at h; exact absurd h (by simp)

end Utils

/-- Claim C10 — confirmed.  `extractVideoId` returns either `none` or a
string of exactly 11 characters drawn from `[A-Za-z0-9_-]`, and
`isValidYouTubeUrl` holds exactly when `extractVideoId` is non-`none`. -/
theorem c10_extract_video_id :
    (∀ url v, Utils.extractVideoId url = some v →
      v.length = 11 ∧ v.data.all Utils.idChar = true) ∧
    (∀ url, Utils.isValidYouTubeUrl url = true ↔
      Utils.extractVideoId url ≠ none) := by
  constructor
  · intro url v h
    exact Utils.extractVideoId_some h
  · intro url
    simp [Utils.isValidYouTubeUrl, Option.isSome_iff_ne_none]

/-- Concrete instantiation of `c10_extract_video_id` at a short-URL input. -/
theorem c10_extract_video_id_witness :
    ("jNQXAC9IVRw" : String).length = 11 ∧
      ("jNQXAC9IVRw" : String).data.all Utils.idChar = true :=
  c10_extract_video_id.1 "https://youtu.be/jNQXAC9IVRw" "jNQXAC9IVRw" (by decide)

namespace TranscriptRoute

/-- The observable parts of a thrown JS error, as inspected by
`app/api/transcript/route.ts` (`message`, `name`, `stack`, `status`). -/
structure JsError where
  message : String
  name : String
  stack : String
  status : Option Nat
deriving DecidableEq

/-- The in-loop blocking/rate-limit test of the retry loop
(route.ts lines 115–126). -/
def isBlockingError (e : JsError) : Bool :=
  let errorMsg := jsToLower e.message
  let errorStack := jsToLower e.stack
  strContains errorMsg "429" ||
  strContains errorMsg "rate limit" ||
  strContains errorMsg "too many requests" ||
  strContains errorMsg "blocked" ||
  strContains errorMsg "forbidden" ||
  strContains errorStack "429" ||
  strContains errorStack "too many requests" ||
  e.status == some 429 ||
  e.status == some 403

/-- The error categories of the route's outer error handler, one per
response branch (route.ts lines 263–332). -/
inductive ErrKind where
  | missingId
  | invalidIdLength
  | noTranscript
  | invalidVideo
  | rateLimited
  | generic
deriving DecidableEq

/-- The outer error handler of the route (route.ts lines 247–332): maps a
thrown error to the HTTP status and branch it is answered with.  The first
matching branch wins, mirroring the if-chain in the source. -/
def classifyOuter (e : JsError) : Nat × ErrKind :=
  let errorMessage := e.message
  let errorMessageLower := jsToLower errorMessage
  let errorName := jsToLower e.name
  if strContains errorMessageLower "transcript is disabled" ||
      strContains errorMessageLower "could not retrieve a transcript" ||
      strContains errorMessageLower "no transcript found" ||
      strContains errorMessageLower "transcript not available" ||
      strContains errorMessageLower "unable to retrieve transcript" ||
      strContains errorMessageLower "no transcripts are available" ||
      strContains errorMessage "🚨" ||
      strContains errorMessage "No transcripts are available" then
    (404, .noTranscript)
  else if strContains errorMessage "invalid video id" ||
      strContains errorMessage "video not found" ||
      strContains errorMessage "video does not exist" then
    (400, .invalidVideo)
  else if strContains errorMessage "rate limit" ||
      strContains errorMessage "too many requests" ||
      strContains errorMessage "429" ||
      strContains errorMessage "403" ||
      strContains errorMessage "forbidden" ||
      strContains errorMessage "blocked" ||
      strContains errorMessage "access denied" ||
      strContains errorName "fetch" ||
      e.status == some 429 ||
      e.status == some 403 then
    (429, .rateLimited)
  else
    (500, .generic)

/-- An item of a raw strategy payload (library result or direct-page parse):
`text` plus `duration`/`offset` as JS numbers (`none` is NaN). -/
structure RawItem where
  text : String
  duration : Option ℚ
  offset : Option ℚ
deriving DecidableEq

/-- A response transcript item after the route's transform (route.ts
lines 227–231); the `|| 0` fallbacks make the numbers NaN-free. -/
structure TItem where
  text : String
  duration : ℚ
  offset : ℚ
deriving DecidableEq

/-- JS `x || ''` on a string. -/
def jsStrOrEmpty (s : String) : String :=
  if s = "" then "" else s

/-- JS `x || fallback || 0` on a number whose only fallback field is absent
in the model (the alternate property names `dur`/`start`/`startTime` never
occur on the canonical records modelled here), so NaN and 0 collapse to 0. -/
def jsNumOr0 : Option ℚ → ℚ
  | none => 0
  | some q => if q = 0 then 0 else q

/-- The route's transform of a raw item into a response item
(route.ts lines 227–231). -/
def transformItem (i : RawItem) : TItem :=
  { text := jsStrOrEmpty i.text
  , duration := jsNumOr0 i.duration
  , offset := jsNumOr0 i.offset }

/-- Behaviour of one library fetch attempt: a resolved array of items or a
thrown error.  (The route's "not an array" branch is unreachable under this
model and is not represented.) -/
inductive FetchOutcome where
  | success (data : List RawItem)
  | failure (e : JsError)
deriving DecidableEq

/-- Attempt behaviours listed per attempt number (attempt `n` reads entry
`n - 1`; attempts beyond the list fail with a blank error). -/
def attemptsOf (l : List FetchOutcome) (n : Nat) : FetchOutcome :=
  l.getD (n - 1) (.failure ⟨"", "", "", none⟩)

/-- How the retry loop ends: `break` with data, or a rethrow. -/
inductive LoopResult where
  | ok (data : List RawItem)
  | thrown (e : JsError)
deriving DecidableEq

/-- `maxRetries` of the route (route.ts line 40). -/
def maxRetries : Nat := 5

/-- The unconditional pre-attempt delay (route.ts line 47):
`Math.min(2000 * (attempt - 1), 10000)`, applied before every attempt
after the first. -/
def progressiveDelay (attempt : Nat) : Nat :=
  min (2000 * (attempt - 1)) 10000

/-- Backoff after a blocking/rate-limit failure (route.ts line 130):
`Math.min(3000 * Math.pow(2, attempt - 1), 15000)`. -/
def blockingDelay (attempt : Nat) : Nat :=
  min (3000 * 2 ^ (attempt - 1)) 15000

/-- Backoff after any other failure (route.ts line 138):
`Math.min(1000 * Math.pow(2, attempt - 1), 5000)`. -/
def genericDelay (attempt : Nat) : Nat :=
  min (1000 * 2 ^ (attempt - 1)) 5000

/-- The retry loop of the route (route.ts lines 43–148), as a function from
the per-attempt behaviours to the loop's result and the ordered list of
delays (in ms) it sleeps through.  `fuel` is structural recursion fuel; the
loop runs attempts `attempt, attempt+1, …` and every recursive call has
`attempt < maxRetries`, so `maxRetries` fuel suffices from `attempt = 1`. -/
def retryAux (outcomes : Nat → FetchOutcome) :
    Nat → Nat → List Nat → LoopResult × List Nat
  | 0, _, delays => (.thrown ⟨"", "", "", none⟩, delays)
  | Nat.succ fuel, attempt, delays =>
    let delays := if attempt > 1 then delays ++ [progressiveDelay attempt] else delays
    match outcomes attempt with
    | .success data => (.ok data, delays)
    | .failure e =>
      if isBlockingError e && decide (attempt < maxRetries) then
        retryAux outcomes fuel (attempt + 1) (delays ++ [blockingDelay attempt])
      else if !isBlockingError e && decide (attempt < maxRetries) then
        retryAux outcomes fuel (attempt + 1) (delays ++ [genericDelay attempt])
      else
        (.thrown e, delays)

/-- Run the retry loop from attempt 1 with no delays recorded. -/
def retryRun (outcomes : Nat → FetchOutcome) : LoopResult × List Nat :=
  retryAux outcomes maxRetries 1 []

/-- The route's terminal answer: a 200 with the transcript payload, or an
error response with its HTTP status and branch. -/
inductive GetResult where
  | ok (videoId : String) (transcript : List TItem) (totalItems : Nat)
  | err (status : Nat) (kind : ErrKind)
deriving DecidableEq

/-- Observable outcome of one GET call: the response plus the delays slept
through and whether each strategy was entered. -/
structure GetOut where
  result : GetResult
  delays : List Nat
  libCalled : Bool
  fallbackCalled : Bool
deriving DecidableEq

/-- Build the 200 response (route.ts lines 214–246). -/
def mkOk (videoId : String) (data : List RawItem) (delays : List Nat)
    (fallbackCalled : Bool) : GetOut :=
  let transcript := data.map transformItem
  ⟨.ok videoId transcript transcript.length, delays, true, fallbackCalled⟩

/-- The GET handler of `app/api/transcript/route.ts`.  `videoId?` models
`searchParams.get('videoId')` (`none` = absent), `lang?` likewise (it does
not influence control flow and is threaded for faithfulness only).
`outcomes` gives the library strategy's behaviour per attempt and
`fallback` the behaviour of `fetchTranscriptDirectly`.  Control flow
follows the source: validate, run the retry loop, on an empty successful
array invoke the fallback, on a thrown error classify and answer. -/
def GET (videoId? : Option String) (lang? : Option String)
    (outcomes : Nat → FetchOutcome)
    (fallback : Except JsError (List RawItem)) : GetOut :=
  match videoId? with
  | none => ⟨.err 400 .missingId, [], false, false⟩
  | some videoId =>
    if videoId = "" then ⟨.err 400 .missingId, [], false, false⟩
    else if videoId.length ≠ 11 then ⟨.err 400 .invalidIdLength, [], false, false⟩
    else
      match retryRun outcomes with
      | (.thrown e, delays) =>
        ⟨.err (classifyOuter e).1 (classifyOuter e).2, delays, true, false⟩
      | (.ok data, delays) =>
        if data.length = 0 then
          match fallback with
          | .ok l =>
            if l.length > 0 then mkOk videoId l delays true
            else ⟨.err 404 .noTranscript, delays, true, true⟩
          | .error _ => ⟨.err 404 .noTranscript, delays, true, true⟩
        else mkOk videoId data delays false

/-- The direct-page strategy's caption-track descriptor
(route.ts lines 391–404). -/
structure CaptionTrack where
  languageCode : String
  baseUrl : Option String
deriving DecidableEq

/-- Track selection of `fetchTranscriptDirectly` (route.ts lines 392–394):
`captionTracks.find(track => track.languageCode === lang)`. -/
def findMatchingTrack (tracks : List CaptionTrack) (lang : String) :
    Option CaptionTrack :=
  tracks.find? (fun t => t.languageCode == lang)

/-- Track selection as the specification describes it for the direct-page
strategy: an exact language-code match, or failing that any track whose
code is prefixed by the requested code.  Stated from the spec's words, for
comparison with `findMatchingTrack` above. -/
def selectTrackClaimed (tracks : List CaptionTrack) (lang : String) :
    Option CaptionTrack :=
  match tracks.find? (fun t => t.languageCode == lang) with
  | some t => some t
  | none => tracks.find? (fun t => jsStartsWith t.languageCode lang)

end TranscriptRoute

/-- A concrete thrown rate-limit error (HTTP 429): classified as blocking by
the in-loop test. -/
def err429 : TranscriptRoute.JsError :=
  ⟨"429 Too Many Requests", "Error", "", some 429⟩

/-- A concrete "captions disabled" error: not classified as blocking by the
in-loop test, and classified as the 404 no-transcript case by the outer
handler. -/
def errDisabled : TranscriptRoute.JsError :=
  ⟨"Transcript is disabled on this video", "Error", "", none⟩

/-- A sample raw transcript item. -/
def sampleRaw : TranscriptRoute.RawItem := ⟨"hello", some 2, some 0⟩

/-- Attempt behaviours for claim C1's scenario: two blocking failures, then
success. -/
def c1Outcomes : Nat → TranscriptRoute.FetchOutcome :=
  TranscriptRoute.attemptsOf
    [.failure err429, .failure err429, .success [sampleRaw]]

/-- Claim C1 — counterexample.  With a strategy that fails with a classified
rate-limit error on its first two attempts and succeeds on the third, the
loop returns success but sleeps through FOUR delays (a classified backoff
after each failure plus an unconditional progressive delay before each
later attempt), not the claimed two. -/
theorem c1_counterexample :
    (TranscriptRoute.retryRun c1Outcomes).1 = .ok [sampleRaw] ∧
    (TranscriptRoute.retryRun c1Outcomes).2 = [3000, 2000, 6000, 4000] ∧
    ¬ (TranscriptRoute.retryRun c1Outcomes).2.length = 2 := by
  decide

/-- Claim C1 — amended.  In the rate-limited-twice-then-success scenario the
orchestrator returns success after two inter-attempt gaps, each consisting
of a classified backoff delay followed by a progressive pre-attempt delay
(four delays in all: 3000, 2000, 6000, 4000 ms, each ≥ 2000 ms); the
classified backoff tables are exponential from 3 s capped at 15 s for
blocking errors and from 1 s capped at 5 s otherwise. -/
theorem c1_retry_backoff :
    (∀ e1 e2 (data : List TranscriptRoute.RawItem),
      TranscriptRoute.isBlockingError e1 = true →
      TranscriptRoute.isBlockingError e2 = true →
      TranscriptRoute.retryRun (TranscriptRoute.attemptsOf
          [.failure e1, .failure e2, .success data]) =
        (.ok data, [3000, 2000, 6000, 4000]) ∧
      ∀ d ∈ (TranscriptRoute.retryRun (TranscriptRoute.attemptsOf
          [.failure e1, .failure e2, .success data])).2, 2000 ≤ d) ∧
    (List.range 4).map (fun k => TranscriptRoute.blockingDelay (k + 1)) =
      [3000, 6000, 12000, 15000] ∧
    (List.range 4).map (fun k => TranscriptRoute.genericDelay (k + 1)) =
      [1000, 2000, 4000, 5000] := by
  refine ⟨?_, by decide, by decide⟩
  intro e1 e2 data h1 h2
  have hrun : TranscriptRoute.retryRun (TranscriptRoute.attemptsOf
      [.failure e1, .failure e2, .success data]) =
      (.ok data, [3000, 2000, 6000, 4000]) := by
    simp [TranscriptRoute.retryRun, TranscriptRoute.retryAux,
      TranscriptRoute.attemptsOf, TranscriptRoute.maxRetries, h1, h2,
      TranscriptRoute.blockingDelay, TranscriptRoute.progressiveDelay]
  refine ⟨hrun, ?_⟩
  rw [hrun]
  intro d hd
  simp only [List.mem_cons, List.not_mem_nil, or_false] at hd
  rcases hd with rfl | rfl | rfl | rfl <;> norm_num

/-- Concrete instantiation of `c1_retry_backoff` at the 429 error. -/
theorem c1_retry_backoff_witness :
    TranscriptRoute.retryRun (TranscriptRoute.attemptsOf
        [.failure err429, .failure err429, .success [sampleRaw]]) =
      (.ok [sampleRaw], [3000, 2000, 6000, 4000]) :=
  (c1_retry_backoff.1 err429 err429 [sampleRaw] (by decide) (by decide)).1

/-- Claim C8 — counterexample.  `errDisabled` is a non-retryable classified
error (the outer handler answers it with the 404 no-transcript branch, the
spec's `NoCaptionsForLanguage`), yet when attempt 1 fails with it the retry
loop does NOT abort: it sleeps the generic backoff plus the progressive
delay and runs attempt 2 (which here succeeds) — and a call whose every
attempt fails with it never invokes the fallback strategy, answering 404
directly instead of moving on. -/
theorem c8_counterexample :
    TranscriptRoute.classifyOuter errDisabled = (404, .noTranscript) ∧
    TranscriptRoute.isBlockingError errDisabled = false ∧
    TranscriptRoute.retryRun (TranscriptRoute.attemptsOf
        [.failure errDisabled, .success [sampleRaw]]) =
      (.ok [sampleRaw], [1000, 2000]) ∧
    TranscriptRoute.GET (some "aaaaaaaaaaa") none
        (fun _ => .failure errDisabled) (.ok [sampleRaw]) =
      ⟨.err 404 .noTranscript,
        [1000, 2000, 2000, 4000, 4000, 6000, 5000, 8000], true, false⟩ := by
  refine ⟨by decide, by decide, by decide, by decide⟩

/-- Delays slept through when every attempt fails with the same error
(blocking or generic backoff after attempts 1–4, progressive delay before
attempts 2–5). -/
def allFailDelays (e : TranscriptRoute.JsError) : List Nat :=
  if TranscriptRoute.isBlockingError e then
    [3000, 2000, 6000, 4000, 12000, 6000, 15000, 8000]
  else
    [1000, 2000, 2000, 4000, 4000, 6000, 5000, 8000]

/-- Claim C8 — amended.  The retry loop retries EVERY error — blocking or
not, retryable or not — until the 5-attempt maximum: any first-attempt
failure is followed by a second attempt, and an error that persists through
all 5 attempts is rethrown only then; the route then classifies it and
answers with the classified response without invoking the fallback
strategy (the fallback runs only after an empty successful result). -/
theorem c8_every_error_retried :
    (∀ e (data : List TranscriptRoute.RawItem),
      (TranscriptRoute.retryRun (TranscriptRoute.attemptsOf
          [.failure e, .success data])).1 = .ok data) ∧
    (∀ e, TranscriptRoute.retryRun (fun _ => .failure e) =
      (.thrown e, allFailDelays e)) ∧
    (∀ v lang? outcomes fallback e,
      v.length = 11 →
      (TranscriptRoute.retryRun outcomes).1 = .thrown e →
      TranscriptRoute.GET (some v) lang? outcomes fallback =
        ⟨.err (TranscriptRoute.classifyOuter e).1
            (TranscriptRoute.classifyOuter e).2,
          (TranscriptRoute.retryRun outcomes).2, true, false⟩) := by
  refine ⟨?_, ?_, ?_⟩
  · intro e data
    cases hb : TranscriptRoute.isBlockingError e <;>
      simp [TranscriptRoute.retryRun, TranscriptRoute.retryAux,
        TranscriptRoute.attemptsOf, TranscriptRoute.maxRetries, hb]
  · intro e
    cases hb : TranscriptRoute.isBlockingError e <;>
      simp [TranscriptRoute.retryRun, TranscriptRoute.retryAux,
        TranscriptRoute.maxRetries, hb, allFailDelays,
        TranscriptRoute.blockingDelay, TranscriptRoute.genericDelay,
        TranscriptRoute.progressiveDelay]
  · intro v lang? outcomes fallback e hv hthrown
    have hne : v ≠ "" := by
      intro hv0
      rw [hv0] at hv
      simp at hv
    rcases hr : TranscriptRoute.retryRun outcomes with ⟨r, ds⟩
    rw [hr] at hthrown
    simp only at hthrown
    subst hthrown
    simp [TranscriptRoute.GET, hne, hv, hr]

/-- Concrete instantiation of `c8_every_error_retried` at the disabled-
captions error. -/
theorem c8_every_error_retried_witness :
    (TranscriptRoute.retryRun (TranscriptRoute.attemptsOf
        [.failure errDisabled, .success [sampleRaw]])).1 = .ok [sampleRaw] ∧
    TranscriptRoute.GET (some "aaaaaaaaaaa") none
        (fun _ => .failure err429) (.ok []) =
      ⟨.err (TranscriptRoute.classifyOuter err429).1
          (TranscriptRoute.classifyOuter err429).2,
        (TranscriptRoute.retryRun (fun _ => .failure err429)).2, true, false⟩ :=
  ⟨c8_every_error_retried.1 errDisabled [sampleRaw],
   c8_every_error_retried.2.2 "aaaaaaaaaaa" none (fun _ => .failure err429)
     (.ok []) err429 (by decide) (by decide)⟩

/-- Claim C2 — confirmed.  When the library strategy succeeds with an empty
array and the direct-page fallback returns a non-empty list, the route's
final 200 carries the fallback's segments; and no successful response ever
carries an empty transcript (an empty result is never surfaced as terminal
success — even the last strategy's empty result becomes a 404 — which
satisfies the claim's "only from the last strategy" as an only-if). -/
theorem c2_fallback_on_empty :
    (∀ v lang? outcomes (l : List TranscriptRoute.RawItem),
      v.length = 11 →
      (TranscriptRoute.retryRun outcomes).1 = .ok [] →
      l ≠ [] →
      TranscriptRoute.GET (some v) lang? outcomes (.ok l) =
        ⟨.ok v (l.map TranscriptRoute.transformItem) l.length,
          (TranscriptRoute.retryRun outcomes).2, true, true⟩) ∧
    (∀ v? lang? outcomes fallback v t n,
      (TranscriptRoute.GET v? lang? outcomes fallback).result = .ok v t n →
      t ≠ []) := by
  constructor
  · intro v lang? outcomes l hv hempty hl
    have hne : v ≠ "" := by
      intro hv0
      rw [hv0] at hv
      simp at hv
    have hlpos : l.length > 0 := List.length_pos.mpr hl
    rcases hr : TranscriptRoute.retryRun outcomes with ⟨r, ds⟩
    rw [hr] at hempty
    simp only at hempty
    subst hempty
    simp [TranscriptRoute.GET, hne, hv, hr, hlpos, TranscriptRoute.mkOk]
  · intro v? lang? outcomes fallback v t n h
    cases v? with
    | none => simp [TranscriptRoute.GET] at h
    | some vid =>
      unfold TranscriptRoute.GET at h
      rcases hr : TranscriptRoute.retryRun outcomes with ⟨r, ds⟩
      rw [hr] at h
      cases r with
      | thrown e =>
        simp only [TranscriptRoute.mkOk] at h
        repeat' split at h
        all_goals simp at h
      | ok data =>
        simp only [TranscriptRoute.mkOk] at h
        repeat' split at h
        all_goals
          first
          | (injection h with h1 h2 h3
             subst h2
             intro hmap
             rw [List.map_eq_nil_iff] at hmap
             subst hmap
             simp_all)
          | (injection h)

/-- Concrete instantiation of `c2_fallback_on_empty`: the library returns an
empty array, the fallback three segments; the response carries the three. -/
theorem c2_fallback_on_empty_witness :
    TranscriptRoute.GET (some "aaaaaaaaaaa") none
        (TranscriptRoute.attemptsOf [.success []])
        (.ok [⟨"a", some 1, some 0⟩, ⟨"b", some 1, some 1⟩,
              ⟨"c", some 1, some 2⟩]) =
      ⟨.ok "aaaaaaaaaaa"
          ([⟨"a", some 1, some 0⟩, ⟨"b", some 1, some 1⟩,
            ⟨"c", some 1, some 2⟩].map TranscriptRoute.transformItem) 3,
        (TranscriptRoute.retryRun
          (TranscriptRoute.attemptsOf [.success []])).2, true, true⟩ :=
  c2_fallback_on_empty.1 "aaaaaaaaaaa" none
    (TranscriptRoute.attemptsOf [.success []])
    [⟨"a", some 1, some 0⟩, ⟨"b", some 1, some 1⟩, ⟨"c", some 1, some 2⟩]
    (by decide) (by decide) (by decide)

/-- An 11-character identifier containing characters outside
`[A-Za-z0-9_-]`. -/
def badAlphabetId : String := "!!!!!!!!!!!"

/-- Identifier validity as the specification states it: exactly 11
characters drawn from `[A-Za-z0-9_-]`.  Stated from the spec's words, for
comparison with the route's length-only check. -/
def specValidId (s : String) : Bool :=
  s.length == 11 && s.data.all Utils.idChar

/-- Claim C3 — counterexample.  `"!!!!!!!!!!!"` is not a valid identifier
under the spec's alphabet, yet the route's validation passes it (only the
length is checked): the library strategy is invoked and the call can even
succeed. -/
theorem c3_counterexample :
    specValidId badAlphabetId = false ∧
    badAlphabetId.length = 11 ∧
    TranscriptRoute.GET (some badAlphabetId) none
        (TranscriptRoute.attemptsOf [.success [sampleRaw]]) (.ok []) =
      ⟨.ok badAlphabetId [TranscriptRoute.transformItem sampleRaw] 1,
        [], true, false⟩ := by
  refine ⟨by decide, by decide, by decide⟩

/-- Claim C3 — amended.  The route validates only the LENGTH of the
identifier: a missing identifier or one whose length differs from 11 is
answered 400 before any strategy runs (no attempt, no delay, no fallback);
any 11-character string — whatever its characters — reaches the library
strategy. -/
theorem c3_length_only_validation :
    (∀ v lang? outcomes fallback, v.length ≠ 11 →
      TranscriptRoute.GET (some v) lang? outcomes fallback =
        ⟨.err 400 (if v = "" then .missingId else .invalidIdLength),
          [], false, false⟩) ∧
    (∀ lang? outcomes fallback,
      TranscriptRoute.GET none lang? outcomes fallback =
        ⟨.err 400 .missingId, [], false, false⟩) ∧
    (∀ v lang? outcomes fallback, v.length = 11 →
      (TranscriptRoute.GET (some v) lang? outcomes fallback).libCalled = true) := by
  refine ⟨?_, ?_, ?_⟩
  · intro v lang? outcomes fallback hv
    by_cases h0 : v = ""
    · subst h0
      simp [TranscriptRoute.GET]
    · simp [TranscriptRoute.GET, h0, hv]
  · intro lang? outcomes fallback
    simp [TranscriptRoute.GET]
  · intro v lang? outcomes fallback hv
    have hne : v ≠ "" := by
      intro hv0
      rw [hv0] at hv
      simp at hv
    rcases hr : TranscriptRoute.retryRun outcomes with ⟨r, ds⟩
    cases r with
    | thrown e => simp [TranscriptRoute.GET, hne, hv, hr]
    | ok data =>
      by_cases hd : data.length = 0
      · cases fallback with
        | ok l =>
          by_cases hl : l.length > 0 <;>
            simp [TranscriptRoute.GET, hne, hv, hr, hd, hl,
              TranscriptRoute.mkOk]
        | error e => simp [TranscriptRoute.GET, hne, hv, hr, hd]
      · simp [TranscriptRoute.GET, hne, hv, hr, hd, TranscriptRoute.mkOk]

namespace YtDlp

/-- One text fragment of a segment-JSON event (`segs[i].utf8`). -/
structure Seg3 where
  utf8 : String
deriving DecidableEq

/-- A segment-JSON event as read by the yt-dlp route: an optional fragment
list, a start time and a duration in milliseconds (absent fields are
`none`). -/
structure Event3 where
  segs : Option (List Seg3)
  tStartMs : Option ℚ
  dDurationMs : Option ℚ
deriving DecidableEq

/-- A transcript item produced by the yt-dlp route's segment-JSON branch
(numbers are NaN-free there: the `|| 0` guards collapse NaN to 0). -/
structure Json3Item where
  text : String
  duration : ℚ
  offset : ℚ
deriving DecidableEq

/-- JS `x || 0` on a number (`none` is NaN / an absent field). -/
def jsQOr0 : Option ℚ → ℚ
  | none => 0
  | some q => if q = 0 then 0 else q

/-- The event filter of the segment-JSON branch:
`e.segs && e.segs.length > 0`. -/
def hasSegs (e : Event3) : Bool :=
  match e.segs with
  | some l => decide (0 < l.length)
  | none => false

/-- One mapped event of the segment-JSON branch: concatenate the fragments
with no separator, divide milliseconds by 1000, collapse an absent field's
NaN to 0 via `|| 0`. -/
def json3Event (e : Event3) : Json3Item :=
  { text := String.join ((e.segs.getD []).map Seg3.utf8)
  , duration := jsQOr0 (e.dDurationMs.map (· / 1000))
  , offset := jsQOr0 (e.tStartMs.map (· / 1000)) }

/-- The segment-JSON parser of the yt-dlp route (lines 97–105):
`json.events.filter(e => e.segs && e.segs.length > 0).map(...)`. -/
def parseJson3 (events : List Event3) : List Json3Item :=
  (events.filter hasSegs).map json3Event

/-- A cue of the route's simplified VTT parser; numbers are JS numbers
(`none` is NaN). -/
structure VttItem where
  offset : Option ℚ
  duration : Option ℚ
  text : String
deriving DecidableEq

/-- `parseVttTime` of the yt-dlp route (lines 160–173).  The argument is
`none` when the corresponding side of the `' --> '` split is absent
(JS `undefined`, caught by the falsy guard).  A side with neither 2 nor 3
colon-separated fields yields 0; `parseFloat` failures propagate NaN. -/
def parseVttTime (timeStr : Option String) : Option ℚ :=
  match timeStr with
  | none => some 0
  | some t =>
    if t = "" then some 0
    else
      let parts := jsSplit (jsTrim t) ":"
      if parts.length = 3 then
        jadd (jadd (jmul (parseFloatM (parts.getD 0 "")) 3600)
          (jmul (parseFloatM (parts.getD 1 "")) 60))
          (parseFloatM (parts.getD 2 ""))
      else if parts.length = 2 then
        jadd (jmul (parseFloatM (parts.getD 0 "")) 60)
          (parseFloatM (parts.getD 1 ""))
      else some 0

/-- Update the most recently pushed cue — the JS code mutates
`currentSegment` after having pushed it, and `currentSegment` is always the
last element of the transcript array. -/
def updLast (f : VttItem → VttItem) : List VttItem → List VttItem
  | [] => []
  | [x] => [f x]
  | x :: xs => x :: updLast f xs

/-- The line loop of the yt-dlp route's simplified VTT parser
(lines 112–127): a line containing `-->` pushes a new cue (split on
`' --> '`, offset from the left side, duration = right − left); subsequent
non-empty lines that are not `NOTE`/`WEBVTT` lines accumulate onto the
current (= last pushed) cue's text, space-joined. -/
def vttLoop : List String → Bool → List VttItem → List VttItem
  | [], _, acc => acc
  | line :: rest, active, acc =>
    if strContains line "-->" then
      let ps := jsSplit line " --> "
      let seg : VttItem :=
        { offset := parseVttTime (ps.get? 0)
        , duration := jsub (parseVttTime (ps.get? 1)) (parseVttTime (ps.get? 0))
        , text := "" }
      vttLoop rest true (acc ++ [seg])
    else if active && !(jsTrim line == "") && !(jsStartsWith line "NOTE") &&
        !(jsStartsWith line "WEBVTT") then
      vttLoop rest active (updLast (fun it =>
        { it with text := it.text ++ (if it.text = "" then "" else " ") ++
            jsTrim line }) acc)
    else
      vttLoop rest active acc

/-- The yt-dlp route's simplified VTT parser: split the payload on newlines
and run the line loop. -/
def parseVttText (text : String) : List VttItem :=
  vttLoop (jsSplit text "\n") false []

/-- A subtitle-format entry of yt-dlp's dump (`{ext, url}`). -/
structure SubFormat where
  ext : String
  url : Option String
deriving DecidableEq

/-- JS object spread `{...a, ...b}` on string-keyed objects with unique
keys: keys of `a` first (values overridden by `b` on collision), then the
keys of `b` not present in `a`, in insertion order. -/
def mergeObj (a b : List (String × List SubFormat)) :
    List (String × List SubFormat) :=
  a.map (fun p => (p.1, (List.lookup p.1 b).getD p.2)) ++
    b.filter (fun p => (List.lookup p.1 a).isNone)

/-- Subtitle-track selection of the yt-dlp route (lines 53–63):
`output.subtitles?.[lang] || output.automatic_captions?.[lang]`, and if
neither is present, the first key of the merged object that starts with the
requested code. -/
def selectSubtitles (subtitles automatic : List (String × List SubFormat))
    (lang : String) : Option (List SubFormat) :=
  match List.lookup lang subtitles with
  | some v => some v
  | none =>
    match List.lookup lang automatic with
    | some v => some v
    | none =>
      let allSubs := mergeObj subtitles automatic
      match (allSubs.map Prod.fst).find? (fun l => jsStartsWith l lang) with
      | some m => List.lookup m allSubs
      | none => none

end YtDlp

namespace TranscriptRoute

/-- Tokens of the linear regexes used by `parseTranscriptXml` (route.ts
lines 502–521): literals, `\s+`, greedy `[^c]*` / `[^c]+` (with a capture
flag), lazy `([\s\S]*?)`, plus the internal chooser states that drive
greedy/lazy backtracking. -/
inductive RTok where
  | lit (s : List Char)
  | wsP
  | starNot (c : Char) (cap : Bool)
  | plusNot (c : Char) (cap : Bool)
  | anyLazy (cap : Bool)
  | chooseDesc (k : Nat) (lo : Nat) (cap : Bool)
  | chooseAsc (k : Nat) (hi : Nat) (cap : Bool)

/-- Length of the maximal run of characters different from `c`. -/
def countNot (c : Char) : List Char → Nat
  | [] => 0
  | x :: xs => if x == c then 0 else countNot c xs + 1

/-- Length of the maximal whitespace run. -/
def countWs : List Char → Nat
  | [] => 0
  | x :: xs => if x.isWhitespace then countWs xs + 1 else 0

/-- Backtracking matcher for the linear token patterns, anchored at the
start of `input`: greedy quantifiers try the longest take first and give
back one character at a time, the lazy quantifier tries the shortest
first — JS regex semantics for these patterns.  Captured groups accumulate
left to right.  `fuel` bounds the recursion depth; since each frame
consumes one unit and a chooser chain for a quantifier is at most the
input length, `20 * (|input| + 2)` suffices for the ≤ 13-token patterns
below. -/
def reMatch : Nat → List RTok → List Char → List (List Char) →
    Option (List Char × List (List Char))
  | 0, _, _, _ => none
  | Nat.succ fuel, toks, input, caps =>
    match toks with
    | [] => some (input, caps)
    | .lit s :: rest =>
      if s.isPrefixOf input then reMatch fuel rest (input.drop s.length) caps
      else none
    | .wsP :: rest =>
      if countWs input == 0 then none
      else reMatch fuel (.chooseDesc (countWs input) 1 false :: rest) input caps
    | .starNot c cap :: rest =>
      reMatch fuel (.chooseDesc (countNot c input) 0 cap :: rest) input caps
    | .plusNot c cap :: rest =>
      if countNot c input == 0 then none
      else reMatch fuel (.chooseDesc (countNot c input) 1 cap :: rest) input caps
    | .anyLazy cap :: rest =>
      reMatch fuel (.chooseAsc 0 input.length cap :: rest) input caps
    | .chooseDesc k lo cap :: rest =>
      match reMatch fuel rest (input.drop k)
          (if cap then caps ++ [input.take k] else caps) with
      | some r => some r
      | none =>
        if k ≤ lo then none
        else reMatch fuel (.chooseDesc (k - 1) lo cap :: rest) input caps
    | .chooseAsc k hi cap :: rest =>
      match reMatch fuel rest (input.drop k)
          (if cap then caps ++ [input.take k] else caps) with
      | some r => some r
      | none =>
        if hi ≤ k then none
        else reMatch fuel (.chooseAsc (k + 1) hi cap :: rest) input caps

/-- Global scan (the `while ((match = pattern.exec(xml)) !== null)` loops):
leftmost matches, scanning resumes after each match.  `fuel` is the input
length plus one (every step consumes at least one character — the patterns
all start with a non-empty literal). -/
def reFindAll (toks : List RTok) : Nat → List Char → List (List (List Char))
  | 0, _ => []
  | Nat.succ fuel, input =>
    match reMatch (20 * (input.length + 2)) toks input [] with
    | some (rest, caps) => caps :: reFindAll toks fuel rest
    | none =>
      match input with
      | [] => []
      | _ :: t => reFindAll toks fuel t

/-- Pattern 1 of `parseTranscriptXml` (route.ts line 502):
`<text\s+start="([^"]+)"\s+dur="([^"]+)"[^>]*>([^<]*)<\/text>`. -/
def pat1 : List RTok :=
  [ .lit "<text".data, .wsP, .lit "start=\"".data, .plusNot '"' true,
    .lit "\"".data, .wsP, .lit "dur=\"".data, .plusNot '"' true,
    .lit "\"".data, .starNot '>' false, .lit ">".data, .starNot '<' true,
    .lit "</text>".data ]

/-- Pattern 2 of `parseTranscriptXml` (route.ts line 510):
`<text\s+start="([^"]+)"\s+dur="([^"]+)"[^>]*><!\[CDATA\[([\s\S]*?)\]\]><\/text>`. -/
def pat2 : List RTok :=
  [ .lit "<text".data, .wsP, .lit "start=\"".data, .plusNot '"' true,
    .lit "\"".data, .wsP, .lit "dur=\"".data, .plusNot '"' true,
    .lit "\"".data, .starNot '>' false, .lit "><![CDATA[".data,
    .anyLazy true, .lit "]]></text>".data ]

/-- Pattern 3 of `parseTranscriptXml` (route.ts line 518):
`<text[^>]*start="([^"]+)"[^>]*dur="([^"]+)"[^>]*>([\s\S]*?)<\/text>`. -/
def pat3 : List RTok :=
  [ .lit "<text".data, .starNot '>' false, .lit "start=\"".data,
    .plusNot '"' true, .lit "\"".data, .starNot '>' false,
    .lit "dur=\"".data, .plusNot '"' true, .lit "\"".data,
    .starNot '>' false, .lit ">".data, .anyLazy true, .lit "</text>".data ]

/-- First occurrence split: `some (before, after)` when `sep` occurs in the
list, scanning left to right. -/
def splitFirst (sep : List Char) : List Char → Option (List Char × List Char)
  | [] => if sep.isEmpty then some ([], []) else none
  | c :: t =>
    if sep.isPrefixOf (c :: t) then some ([], (c :: t).drop sep.length)
    else
      match splitFirst sep t with
      | some (a, b) => some (c :: a, b)
      | none => none

/-- The CDATA-unwrap pass of `parseTranscriptXml` (route.ts line 534):
`text.replace(/<!\[CDATA\[([\s\S]*?)\]\]>/g, '$1')` — each
`<![CDATA[` … first `]]>` wrapper is replaced by its contents; an opener
with no closer does not match and scanning moves on.  `fuel` is the input
length. -/
def stripCdata : Nat → List Char → List Char
  | 0, cs => cs
  | Nat.succ fuel, cs =>
    if "<![CDATA[".data.isPrefixOf cs then
      match splitFirst "]]>".data (cs.drop 9) with
      | some (body, rest) => body ++ stripCdata fuel rest
      | none =>
        match cs with
        | [] => []
        | c :: t => c :: stripCdata fuel t
    else
      match cs with
      | [] => []
      | c :: t => c :: stripCdata fuel t

/-- Digits of a decimal numeral to a `Nat` (JS `parseInt(code, 10)` on an
all-digit string). -/
def digitsToNat (ds : List Char) : Nat :=
  ds.foldl (fun a c => a * 10 + (c.toNat - 48)) 0

/-- JS `String.fromCharCode`: the code is taken modulo 2^16 (ToUint16);
lone-surrogate outputs (not exercised here) fall back to `Char.ofNat`'s
default. -/
def jsFromCharCode (n : Nat) : Char :=
  Char.ofNat (n % 65536)

/-- The numeric-character-reference pass of `parseTranscriptXml`
(route.ts line 544): `.replace(/&#(\d+);/g, …)` — `&#` followed by one or
more digits and `;` becomes the character with that code; anything else is
copied.  `fuel` is the input length. -/
def replaceNumRefs : Nat → List Char → List Char
  | 0, cs => cs
  | Nat.succ fuel, cs =>
    if "&#".data.isPrefixOf cs then
      let ds := (cs.drop 2).takeWhile Char.isDigit
      let rest := (cs.drop 2).dropWhile Char.isDigit
      if !ds.isEmpty && rest.take 1 == [';'] then
        jsFromCharCode (digitsToNat ds) :: replaceNumRefs fuel (rest.drop 1)
      else
        match cs with
        | [] => []
        | c :: t => c :: replaceNumRefs fuel t
    else
      match cs with
      | [] => []
      | c :: t => c :: replaceNumRefs fuel t

/-- The entity-decoding chain of `parseTranscriptXml` (route.ts
lines 537–545): sequential global single passes for `&amp;`, `&lt;`,
`&gt;`, `&quot;`, `&#39;`, `&nbsp;`, then numeric character references,
then trim. -/
def decodeEntities (s : String) : String :=
  let c1 := replaceSub "&amp;".data "&".data s.data.length s.data
  let c2 := replaceSub "&lt;".data "<".data c1.length c1
  let c3 := replaceSub "&gt;".data ">".data c2.length c2
  let c4 := replaceSub "&quot;".data "\"".data c3.length c3
  let c5 := replaceSub "&#39;".data "'".data c4.length c4
  let c6 := replaceSub "&nbsp;".data " ".data c5.length c5
  let c7 := replaceNumRefs c6.length c6
  jsTrim (String.mk c7)

/-- One match of the cue loop (route.ts lines 528–553): parse the `start`
and `dur` captures as floats, unwrap CDATA, decode entities and trim;
returns `none` when the resulting text is empty (the segment is dropped,
`if (text)`). -/
def xmlSegOfMatch (m : List (List Char)) : Option RawItem :=
  let text1 := stripCdata (m.getD 2 []).length (m.getD 2 [])
  let text := decodeEntities (String.mk text1)
  if text = "" then none
  else
    some { text := text
         , duration := parseFloatM (String.mk (m.getD 1 []))
         , offset := parseFloatM (String.mk (m.getD 0 [])) }

/-- `parseTranscriptXml` of the route (lines 489–569): try pattern 1, on
zero matches pattern 2, then pattern 3; build a segment per match, dropping
empty-text ones. -/
def parseTranscriptXml (xml : String) : List RawItem :=
  let cs := xml.data
  let m1 := reFindAll pat1 (cs.length + 1) cs
  let textMatches :=
    if m1.length = 0 then
      let m2 := reFindAll pat2 (cs.length + 1) cs
      if m2.length = 0 then reFindAll pat3 (cs.length + 1) cs else m2
    else m1
  textMatches.filterMap xmlSegOfMatch

end TranscriptRoute

/-- The `|| 0` guard after a millisecond division agrees with dividing the
`getD 0` default: an absent field's NaN and an explicit 0 both collapse
to 0. -/
theorem jsQOr0_map_div (x : Option ℚ) :
    YtDlp.jsQOr0 (x.map (· / 1000)) = x.getD 0 / 1000 := by
  cases x with
  | none => simp [YtDlp.jsQOr0]
  | some d =>
    show (if d / 1000 = 0 then (0 : ℚ) else d / 1000) = d / 1000
    split_ifs with h
    · exact h.symm
    · rfl

/-- Claim C4 — confirmed.  The segment-JSON branch skips events without
text fragments, emits exactly one item per event with a non-empty fragment
list, in order, with text the separator-free concatenation of the
fragments, offset = start ms / 1000 and duration = duration ms / 1000 with
a missing duration treated as 0. -/
theorem c4_segment_json_events :
    (∀ (e : YtDlp.Event3) rest, (e.segs = none ∨ e.segs = some []) →
      YtDlp.parseJson3 (e :: rest) = YtDlp.parseJson3 rest) ∧
    (∀ (e : YtDlp.Event3) rest l, e.segs = some l → l ≠ [] →
      YtDlp.parseJson3 (e :: rest) =
        { text := String.join (l.map YtDlp.Seg3.utf8)
        , duration := e.dDurationMs.getD 0 / 1000
        , offset := e.tStartMs.getD 0 / 1000 } :: YtDlp.parseJson3 rest) ∧
    (∀ events, (YtDlp.parseJson3 events).length =
      (events.filter YtDlp.hasSegs).length) := by
  refine ⟨?_, ?_, ?_⟩
  · intro e rest hs
    have hfalse : YtDlp.hasSegs e = false := by
      rcases hs with h | h <;> simp [YtDlp.hasSegs, h]
    simp [YtDlp.parseJson3, List.filter_cons, hfalse]
  · intro e rest l hs hl
    have htrue : YtDlp.hasSegs e = true := by
      simp only [YtDlp.hasSegs, hs, decide_eq_true_eq]
      exact List.length_pos.mpr hl
    simp [YtDlp.parseJson3, List.filter_cons, htrue, YtDlp.json3Event, hs,
      jsQOr0_map_div]
  · intro events
    simp [YtDlp.parseJson3]

/-- Concrete instantiation of `c4_segment_json_events`: a two-fragment
event followed by a fragment-free event. -/
theorem c4_segment_json_events_witness :
    YtDlp.parseJson3 (⟨some [⟨"Hel"⟩, ⟨"lo"⟩], some 1200, some 3400⟩ ::
        [⟨none, some 5, some 6⟩]) =
      { text := String.join ([⟨"Hel"⟩, ⟨"lo"⟩].map YtDlp.Seg3.utf8)
      , duration := (some (3400 : ℚ)).getD 0 / 1000
      , offset := (some (1200 : ℚ)).getD 0 / 1000 } ::
        YtDlp.parseJson3 [⟨none, some 5, some 6⟩] :=
  c4_segment_json_events.2.1 ⟨some [⟨"Hel"⟩, ⟨"lo"⟩], some 1200, some 3400⟩
    [⟨none, some 5, some 6⟩] [⟨"Hel"⟩, ⟨"lo"⟩] rfl (by decide)

/-- Claim C5 — counterexample.  The cue line `"00:03.000 --> 00:01.000"`
yields a cue whose duration is −2, not 0: the parser does not clamp
negative `right − left` results. -/
theorem c5_counterexample :
    YtDlp.parseVttText "00:03.000 --> 00:01.000" =
      [{ offset := some 3, duration := some (-2), text := "" }] ∧
    ¬ (some (-2 : ℚ) = some (0 : ℚ)) ∧
    (-2 : ℚ) < 0 := by
  refine ⟨by decide, by decide, by decide⟩

/-- Claim C5 — amended.  A line containing `-->` starts a cue; the two
sides of the `' --> '` split parse as `[HH:]MM:SS[.mmm]` (two fields =
minutes:seconds, three = hours:minutes:seconds); `offsetSeconds` is the
left timestamp and `durationSeconds` is right − left WITHOUT clamping
(negative results are emitted as-is); the example line yields 1.0 and 2.5;
a malformed timestamp does not drop the cue — a side that is not 2 or 3
colon-separated fields parses as 0 and the cue is still emitted. -/
theorem c5_vtt_cue_parsing :
    YtDlp.parseVttText "00:01.000 --> 00:03.500\nHello world" =
      [{ offset := some 1, duration := some (5 / 2), text := "Hello world" }] ∧
    YtDlp.parseVttTime (some "00:01.000") = some 1 ∧
    YtDlp.parseVttTime (some "01:02:03.500") = some (7447 / 2) ∧
    YtDlp.parseVttText "abc --> 00:02.000\nHi" =
      [{ offset := some 0, duration := some 2, text := "Hi" }] ∧
    YtDlp.parseVttText "00:03.000 --> 00:01.000" =
      [{ offset := some 3, duration := some (-2), text := "" }] := by
  refine ⟨by decide, by decide, by decide, by decide, by decide⟩

/-- An `en-US` caption track, used against a request for `en`. -/
def enUsTrack : TranscriptRoute.CaptionTrack :=
  ⟨"en-US", some "https://captions.example/track"⟩

/-- Claim C9 — counterexample.  The direct-page strategy finds no track for
`en` when only `en-US` is offered: it has no prefix-match fallback, unlike
what the claim states. -/
theorem c9_counterexample :
    TranscriptRoute.findMatchingTrack [enUsTrack] "en" = none ∧
    TranscriptRoute.selectTrackClaimed [enUsTrack] "en" = some enUsTrack ∧
    ¬ (TranscriptRoute.findMatchingTrack [enUsTrack] "en" =
        TranscriptRoute.selectTrackClaimed [enUsTrack] "en") := by
  refine ⟨by decide, by decide, by decide⟩

/-- Claim C9 — amended.  The direct-page strategy selects only a track
whose language code equals the requested code exactly (throwing otherwise);
the exact-then-prefix fallback the claim describes lives in the
external-tool (yt-dlp) strategy, whose selection tries
`subtitles[lang]`, then `automatic_captions[lang]`, then the first
available language key starting with the requested code. -/
theorem c9_exact_only_direct_page :
    (∀ tracks lang t, TranscriptRoute.findMatchingTrack tracks lang = some t →
      t.languageCode = lang) ∧
    YtDlp.selectSubtitles [] [("en-US", [⟨"vtt", some "u"⟩])] "en" =
      some [⟨"vtt", some "u"⟩] ∧
    YtDlp.selectSubtitles [("en", [⟨"json3", some "x"⟩])]
        [("en-GB", [⟨"vtt", some "y"⟩])] "en" = some [⟨"json3", some "x"⟩] := by
  refine ⟨?_, by decide, by decide⟩
  intro tracks lang t h
  have hp := List.find?_some h
  simp only [beq_iff_eq] at hp
  exact hp

/-- Concrete instantiation of `c9_exact_only_direct_page`: the exact match
is found when present. -/
theorem c9_exact_only_direct_page_witness :
    (⟨"en", none⟩ : TranscriptRoute.CaptionTrack).languageCode = "en" :=
  c9_exact_only_direct_page.1 [⟨"en", none⟩] "en" ⟨"en", none⟩ (by decide)

/-- Claim C7 — counterexample.  The segment-JSON parser emits a segment
whose text is empty after trimming: an event whose only fragment is the
empty string passes the `segs.length > 0` filter and is mapped to an
empty-text item, so not every emitted segment has non-empty trimmed
text. -/
theorem c7_counterexample :
    YtDlp.parseJson3 [⟨some [⟨""⟩], some 0, some 1000⟩] =
      [{ text := "", duration := 1, offset := 0 }] ∧
    ¬ (∀ seg ∈ YtDlp.parseJson3 [⟨some [⟨""⟩], some 0, some 1000⟩],
        jsTrim seg.text ≠ "") := by
  refine ⟨by decide, by decide⟩

/-- A cue-XML payload whose overlapping entities defeat the single-pass
replacement: decoding `"&&amp;amp;"` leaves a literal `"&amp;"`. -/
def c6CexXml : String := "<text start=\"0\" dur=\"1\">&&amp;amp;</text>"

/-- A cue-XML payload holding the five standard entities, the
non-breaking-space entity and a numeric character reference. -/
def c6EntityXml : String :=
  "<text start=\"1.5\" dur=\"2\">a&amp;b &lt;c&gt; &quot;d&#39;e&nbsp;f&#65;</text>"

/-- Claim C6 — counterexample.  On the cue text `"&&amp;amp;"` the decoder's
single left-to-right `&amp;` pass produces `"&&amp;"`: the output segment
text still CONTAINS the raw entity sequence `&amp;`, refuting "never the
raw entity sequences" as a universal statement. -/
theorem c6_counterexample :
    TranscriptRoute.parseTranscriptXml c6CexXml =
      [{ text := "&&amp;", duration := some 1, offset := some 0 }] ∧
    strContains "&&amp;" "&amp;" = true := by
  refine ⟨by decide, by decide⟩

set_option maxHeartbeats 1600000 in
/-- Claim C6 — amended.  After cue-text extraction the parser decodes by
SEQUENTIAL global single-pass replacements, in order `&amp;`, `&lt;`,
`&gt;`, `&quot;`, `&#39;`, a non-breaking-space entity, numeric character
references (`&#NNN;`), then trims; on payloads where no replacement output
recombines with adjacent text into a new entity occurrence the decoded
characters appear and the raw sequences are gone (overlapping inputs such
as `"&&amp;amp;"` can leave raw sequences, and `&amp;`-escaped entities are
double-decoded: `"x&amp;lt;y"` ends as `"x<y"`). -/
theorem c6_entity_decoding :
    TranscriptRoute.parseTranscriptXml c6EntityXml =
      [{ text := "a&b <c> \"d'e fA", duration := some 2,
         offset := some (3 / 2) }] ∧
    (∀ raw ∈ ["&amp;", "&lt;", "&gt;", "&quot;", "&#39;"],
      strContains "a&b <c> \"d'e fA" raw = false) ∧
    TranscriptRoute.decodeEntities "x&amp;lt;y" = "x<y" := by
  refine ⟨by decide, by decide, by decide⟩

/-- A successful `xmlSegOfMatch` never carries empty text — the `if (text)`
guard drops those matches. -/
theorem xmlSegOfMatch_some_text {m : List (List Char)}
    {it : TranscriptRoute.RawItem}
    (h : TranscriptRoute.xmlSegOfMatch m = some it) : it.text ≠ "" := by
  unfold TranscriptRoute.xmlSegOfMatch at h
  set text := TranscriptRoute.decodeEntities
    (String.mk (TranscriptRoute.stripCdata (m.getD 2 []).length
      (m.getD 2 []))) with htext
  by_cases hempty : text = ""
  · rw [if_pos hempty] at h
    exact absurd h (by simp)
  · rw [if_neg hempty] at h
    have := Option.some.inj h
    rw [← this]
    exact hempty

/-- Claim C7 — amended.  Only the cue-XML parser guarantees non-empty
(trimmed) segment text: every segment it emits has non-empty text, while
the VTT-like parser pushes a cue with empty text as soon as it sees a cue
line (the text is only accumulated afterwards, if ever), and the
segment-JSON parser can emit empty text (see the counterexample). -/
theorem c7_empty_text_segments :
    (∀ xml it, it ∈ TranscriptRoute.parseTranscriptXml xml →
      it.text ≠ "") ∧
    YtDlp.parseVttText "00:01.000 --> 00:02.000" =
      [{ offset := some 1, duration := some 1, text := "" }] := by
  constructor
  · intro xml it hmem
    simp only [TranscriptRoute.parseTranscriptXml, List.mem_filterMap] at hmem
    obtain ⟨m, -, hm⟩ := hmem
    exact xmlSegOfMatch_some_text hm
  · decide

/-- Concrete instantiation of `c7_empty_text_segments` at a one-cue
payload. -/
theorem c7_empty_text_segments_witness :
    (⟨"hi", some (3 / 2), some (5 / 2)⟩ : TranscriptRoute.RawItem).text ≠ "" :=
  c7_empty_text_segments.1 "<text start=\"2.5\" dur=\"1.5\">hi</text>"
    ⟨"hi", some (3 / 2), some (5 / 2)⟩ (by decide)



/-- Concrete instantiation of `c3_length_only_validation`. -/
theorem c3_length_only_validation_witness :
    TranscriptRoute.GET (some "short") none
        (TranscriptRoute.attemptsOf []) (.ok []) =
      ⟨.err 400 (if ("short" : String) = "" then .missingId
        else .invalidIdLength), [], false, false⟩ ∧
    (TranscriptRoute.GET (some "aaaaaaaaaaa") none
        (TranscriptRoute.attemptsOf [.success [sampleRaw]])
        (.ok [])).libCalled = true :=
  ⟨c3_length_only_validation.1 "short" none (TranscriptRoute.attemptsOf [])
      (.ok []) (by decide),
   c3_length_only_validation.2.2 "aaaaaaaaaaa" none
      (TranscriptRoute.attemptsOf [.success [sampleRaw]]) (.ok []) (by decide)⟩
